import Mathlib

/-
  Verification development for the unwrap-or library: a shallow embedding of
  the Option container (src/lib/option/option.ts) and the Result container
  (src/src/result.ts) together with proofs about their combinators.

  Containers are modelled at the representation level: the source stores the
  payload under a hidden symbol key (sid/nid for Option, oid/eid for Result),
  and the variant queries test for the presence of those keys with the `in`
  operator.  We model an object therefore as a record of its possible hidden
  keys: `Option JsVal` for a key that may be present with a payload, `Bool`
  for the None key (whose payload is always undefined in the source).

  Methods that can throw are modelled in the `Except JsErr` monad; JsErr
  distinguishes the TypeError and Error classes used by the source and keeps
  the exact message text.  User callbacks are modelled as total Lean
  functions; where a claim is about which arguments a callback receives or
  whether it is invoked at all, the combinator additionally returns the list
  of invocations (each invocation being the JS argument list it was given).
-/

/-- Universe of JavaScript values that can be stored in a container or passed
to a callback: undefined, null, booleans, (integer) numbers, strings, arrays,
plain objects and functions (kept as their source text). -/
inductive JsVal where
  | undefined : JsVal
  | null : JsVal
  | bool : Bool → JsVal
  | num : Int → JsVal
  | str : String → JsVal
  | arr : List JsVal → JsVal
  | obj : JsVal
  | fn : String → JsVal

mutual

/-- Models the JavaScript ToString coercion applied by the template literals
in the source's toString methods: undefined/null/booleans/numbers render as
their literal text, strings render as-is, arrays as their comma-joined
elements (Array.prototype.toString), plain objects as "[object Object]" and
functions as their source text. -/
def toDisplay : JsVal → String
  | JsVal.undefined => "undefined"
  | JsVal.null => "null"
  | JsVal.bool true => "true"
  | JsVal.bool false => "false"
  | JsVal.num n => toString n
  | JsVal.str s => s
  | JsVal.arr xs => String.intercalate "," (toDisplayElems xs)
  | JsVal.obj => "[object Object]"
  | JsVal.fn src => src

/-- Inside Array.prototype.toString, null and undefined elements render as the
empty string; every other element renders via ToString. -/
def toDisplayElems : List JsVal → List String
  | [] => []
  | JsVal.undefined :: vs => "" :: toDisplayElems vs
  | JsVal.null :: vs => "" :: toDisplayElems vs
  | v :: vs => toDisplay v :: toDisplayElems vs

end

/-- JSON string escaping for one character, as performed by JSON.stringify. -/
def jsonEscapeChar (c : Char) : String :=
  if c = '"' then "\\\""
  else if c = '\\' then "\\\\"
  else if c = '\n' then "\\n"
  else if c = '\t' then "\\t"
  else if c = '\r' then "\\r"
  else String.singleton c

/-- JSON string escaping, as performed by JSON.stringify on string payloads. -/
def jsonEscape (s : String) : String :=
  String.join (s.toList.map jsonEscapeChar)

mutual

/-- Models the JSON.stringify builtin used by Result.expect/expect_err:
strings are quoted and escaped, undefined and functions produce no rendering
(JSON.stringify returns undefined on them), arrays render bracketed with
unrenderable elements replaced by null, plain objects render as an empty
object literal. -/
def jsonStringify : JsVal → Option String
  | JsVal.undefined => none
  | JsVal.fn _ => none
  | JsVal.null => some "null"
  | JsVal.bool true => some "true"
  | JsVal.bool false => some "false"
  | JsVal.num n => some (toString n)
  | JsVal.str s => some ("\"" ++ jsonEscape s ++ "\"")
  | JsVal.arr xs => some ("[" ++ String.intercalate "," (jsonStringifyElems xs) ++ "]")
  | JsVal.obj => some "\x7b\x7d"

/-- JSON.stringify of array elements: elements that stringify to undefined
are rendered as null inside arrays. -/
def jsonStringifyElems : List JsVal → List String
  | [] => []
  | v :: vs => (jsonStringify v).getD "null" :: jsonStringifyElems vs

end

/-- Errors thrown by the source, separated by their JS class (TypeError vs
Error) and carrying the exact message text. -/
inductive JsErr where
  | typeError : String → JsErr
  | error : String → JsErr
deriving DecidableEq

/-- Representation of an OptionConstructor instance (src/lib/option/option.ts):
`sid` is the hidden Symbol.for("@@option/some") key, present (with its stored
payload) exactly when the constructor was run with the sid id; `nid` records
whether the hidden Symbol.for("@@option/none") key is present (its payload is
always undefined in the source, so a Bool suffices). -/
structure OptionRepr where
  sid : Option JsVal
  nid : Bool

/-- Representation of a Result instance (src/src/result.ts): `oid` and `eid`
are the hidden Symbol.for("@@result/ok") / Symbol.for("@@result/err") keys;
the constructor stores the payload under exactly one of them. -/
structure ResultRepr where
  oid : Option JsVal
  eid : Option JsVal

/-- The Some(value) factory: the constructor stores value under the sid key. -/
def mkSome (v : JsVal) : OptionRepr := ⟨some v, false⟩

/-- The None factory: the constructor stores undefined under the nid key. -/
def mkNone : OptionRepr := ⟨none, true⟩

/-- The Ok(value) factory: the constructor stores value under the oid key. -/
def mkOk (v : JsVal) : ResultRepr := ⟨some v, none⟩

/-- The Err(err) factory: the constructor stores err under the eid key. -/
def mkErr (e : JsVal) : ResultRepr := ⟨none, some e⟩

/-- Option.is_some(): tests `sid in this`. -/
def is_someO (o : OptionRepr) : Bool := o.sid.isSome

/-- Option.is_none(): tests `nid in this`. -/
def is_noneO (o : OptionRepr) : Bool := o.nid

/-- Result.is_ok(): tests `oid in this`. -/
def is_okR (r : ResultRepr) : Bool := r.oid.isSome

/-- Result.is_err(): tests `eid in this`. -/
def is_errR (r : ResultRepr) : Bool := r.eid.isSome

/-- Option's private _extract: throws a TypeError when is_none(), otherwise
reads the sid key (reading an absent key yields undefined in JS). -/
def _extractO (o : OptionRepr) : Except JsErr JsVal :=
  if is_noneO o then Except.error (JsErr.typeError "Prevent taking value from `None`.")
  else Except.ok (o.sid.getD JsVal.undefined)

/-- Result's protected _extract: throws a TypeError when is_err(), otherwise
reads the oid key. -/
def _extractR (r : ResultRepr) : Except JsErr JsVal :=
  if is_errR r then Except.error (JsErr.typeError "Prevent taking value from `Err(E)`.")
  else Except.ok (r.oid.getD JsVal.undefined)

/-- Result's protected _extract_err: throws a TypeError when is_ok(),
otherwise reads the eid key. -/
def _extract_errR (r : ResultRepr) : Except JsErr JsVal :=
  if is_okR r then Except.error (JsErr.typeError "Prevent taking err from `Ok(T)`.")
  else Except.ok (r.eid.getD JsVal.undefined)

/-- Option.and(optb): if is_some() return optb, else a fresh None. -/
def andO (o : OptionRepr) (optb : OptionRepr) : Except JsErr OptionRepr :=
  if is_someO o then Except.ok optb else Except.ok mkNone

/-- Option.and_then(f): if is_some() return f(_extract()), else a fresh None.
The callback is any computation returning an Option container. -/
def and_thenO (o : OptionRepr) (f : JsVal → Except JsErr OptionRepr) : Except JsErr OptionRepr :=
  if is_someO o then (_extractO o).bind f else Except.ok mkNone

/-- Option.expect(msg): if is_some() return _extract(), else throw
`new Error(msg)` with the message verbatim. -/
def expectO (o : OptionRepr) (msg : String) : Except JsErr JsVal :=
  if is_someO o then _extractO o else Except.error (JsErr.error msg)

/-- Option.filter(predicate): if is_some() and predicate(_extract()) then a
fresh Some(_extract()), else a fresh None; the && short-circuits, so on None
the predicate is not invoked.  Alongside the result, the list of arguments
the predicate was invoked on is returned. -/
def filterO (o : OptionRepr) (p : JsVal → Bool) : Except JsErr (OptionRepr × List JsVal) :=
  if is_someO o then
    (_extractO o).bind (fun v =>
      if p v then (_extractO o).map (fun w => (mkSome w, [v]))
      else Except.ok (mkNone, [v]))
  else Except.ok (mkNone, [])

/-- Option.flatten(): if is_some() return the stored value as-is (in typed
use it is itself an Option container), else a fresh None container. -/
def flattenO (o : OptionRepr) : Except JsErr (Sum JsVal OptionRepr) :=
  if is_someO o then (_extractO o).map Sum.inl else Except.ok (Sum.inr mkNone)

/-- Option.inspect(f): if is_some() invoke f(_extract()) for its side effect;
always return the receiver.  The invocation list is returned alongside. -/
def inspectO (o : OptionRepr) : Except JsErr (OptionRepr × List JsVal) :=
  if is_someO o then (_extractO o).map (fun v => (o, [v])) else Except.ok (o, [])

/-- Option.is_none_or(f): if is_some() return f(_extract()), else true. -/
def is_none_orO (o : OptionRepr) (p : JsVal → Bool) : Except JsErr Bool :=
  if is_someO o then (_extractO o).map p else Except.ok true

/-- Option.is_some_and(f): if is_some() return f(_extract()), else false. -/
def is_some_andO (o : OptionRepr) (p : JsVal → Bool) : Except JsErr Bool :=
  if is_someO o then (_extractO o).map p else Except.ok false

/-- Option.map(f): if is_some() return a fresh Some(f(_extract())), else a
fresh None. -/
def mapO (o : OptionRepr) (f : JsVal → JsVal) : Except JsErr OptionRepr :=
  if is_someO o then (_extractO o).map (fun v => mkSome (f v)) else Except.ok mkNone

/-- Option.map_or(default_value, f): if is_some() return f(_extract()), else
default_value (an eager plain argument). -/
def map_orO (o : OptionRepr) (d : JsVal) (f : JsVal → JsVal) : Except JsErr JsVal :=
  if is_someO o then (_extractO o).map f else Except.ok d

/-- Option.map_or_else(default_f, f): if is_some() return f(_extract()), else
default_f(). -/
def map_or_elseO (o : OptionRepr) (df : Unit → JsVal) (f : JsVal → JsVal) : Except JsErr JsVal :=
  if is_someO o then (_extractO o).map f else Except.ok (df ())

/-- Option.ok_or(err): if is_some() return Ok(_extract()), else Err(err). -/
def ok_orO (o : OptionRepr) (err : JsVal) : Except JsErr ResultRepr :=
  if is_someO o then (_extractO o).map mkOk else Except.ok (mkErr err)

/-- Option.or(optb): if is_some() return a fresh Some(_extract()), else optb. -/
def orO (o : OptionRepr) (optb : OptionRepr) : Except JsErr OptionRepr :=
  if is_someO o then (_extractO o).map mkSome else Except.ok optb

/-- Option.or_else(f): if is_some() return a fresh Some(_extract()), else
return f() — the callback is invoked with the empty argument list.  The list
of invocations (each an argument list) is returned alongside. -/
def or_elseO (o : OptionRepr) (f : List JsVal → OptionRepr) :
    Except JsErr (OptionRepr × List (List JsVal)) :=
  if is_someO o then (_extractO o).map (fun v => (mkSome v, []))
  else Except.ok (f [], [[]])

/-- Option.toString(): is_some() ? `Some(value)` : "None", where the template
literal applies the ToString coercion to the stored value. -/
def toStringO (o : OptionRepr) : Except JsErr String :=
  if is_someO o then (_extractO o).map (fun v => "Some(" ++ toDisplay v ++ ")")
  else Except.ok "None"

/-- Option.unwrap(): if is_some() return _extract(), else throw a TypeError. -/
def unwrapO (o : OptionRepr) : Except JsErr JsVal :=
  if is_someO o then _extractO o
  else Except.error (JsErr.typeError "Called Option.unwrap() on a None value")

/-- Option.unwrap_or(default_value): if is_some() return _extract(), else the
eagerly supplied default. -/
def unwrap_orO (o : OptionRepr) (d : JsVal) : Except JsErr JsVal :=
  if is_someO o then _extractO o else Except.ok d

/-- Option.unwrap_or_else(f): if is_some() return _extract(), else return
f() — the callback is invoked with the empty argument list.  The invocation
list is returned alongside. -/
def unwrap_or_elseO (o : OptionRepr) (f : List JsVal → JsVal) :
    Except JsErr (JsVal × List (List JsVal)) :=
  if is_someO o then (_extractO o).map (fun v => (v, []))
  else Except.ok (f [], [[]])

/-- Option.xor(optb): if is_some() then (optb.is_none() ? fresh
Some(_extract()) : fresh None); else (optb.is_some() ? optb : fresh None). -/
def xorO (o : OptionRepr) (optb : OptionRepr) : Except JsErr OptionRepr :=
  if is_someO o then
    (if is_noneO optb then (_extractO o).map mkSome else Except.ok mkNone)
  else
    (if is_someO optb then Except.ok optb else Except.ok mkNone)

/-- Result.and(res): if is_ok() return res, else a fresh Err(_extract_err()). -/
def andR (r : ResultRepr) (res : ResultRepr) : Except JsErr ResultRepr :=
  if is_okR r then Except.ok res else (_extract_errR r).map mkErr

/-- Result.and_then(op): if is_ok() return op(_extract()), else a fresh
Err(_extract_err()). -/
def and_thenR (r : ResultRepr) (op : JsVal → Except JsErr ResultRepr) : Except JsErr ResultRepr :=
  if is_okR r then (_extractR r).bind op else (_extract_errR r).map mkErr

/-- Result.expect(msg): if is_ok() return _extract(); else compute
err = _extract_err(), str_err = JSON.stringify(err) and throw
`new Error(msg + ": " + str_err)` (an undefined rendering interpolates as
the text "undefined" in the template literal). -/
def expectR (r : ResultRepr) (msg : String) : Except JsErr JsVal :=
  if is_okR r then _extractR r
  else (_extract_errR r).bind (fun err =>
    Except.error (JsErr.error (msg ++ ": " ++ ((jsonStringify err).getD "undefined"))))

/-- Result.expect_err(msg): if is_err() return _extract_err(); else compute
value = _extract(), str_value = JSON.stringify(value) and throw
`new Error(msg + ": " + str_value)`. -/
def expect_errR (r : ResultRepr) (msg : String) : Except JsErr JsVal :=
  if is_errR r then _extract_errR r
  else (_extractR r).bind (fun v =>
    Except.error (JsErr.error (msg ++ ": " ++ ((jsonStringify v).getD "undefined"))))

/-- Result.inspect(f): if is_ok() invoke f(_extract()) for its side effect;
always return the receiver.  The invocation list is returned alongside. -/
def inspectR (r : ResultRepr) : Except JsErr (ResultRepr × List JsVal) :=
  if is_okR r then (_extractR r).map (fun v => (r, [v])) else Except.ok (r, [])

/-- Result.inspect_err(f): if is_err() invoke f(_extract_err()) for its side
effect; always return the receiver. -/
def inspect_errR (r : ResultRepr) : Except JsErr (ResultRepr × List JsVal) :=
  if is_errR r then (_extract_errR r).map (fun e => (r, [e])) else Except.ok (r, [])

/-- Result.is_err_and(f): if is_err() return f(_extract_err()), else false. -/
def is_err_andR (r : ResultRepr) (p : JsVal → Bool) : Except JsErr Bool :=
  if is_errR r then (_extract_errR r).map p else Except.ok false

/-- Result.is_ok_and(f): if is_ok() return f(_extract()), else false. -/
def is_ok_andR (r : ResultRepr) (p : JsVal → Bool) : Except JsErr Bool :=
  if is_okR r then (_extractR r).map p else Except.ok false

/-- Result.map(f): if is_ok() return a fresh Ok(f(_extract())), else a fresh
Err(_extract_err()). -/
def mapR (r : ResultRepr) (f : JsVal → JsVal) : Except JsErr ResultRepr :=
  if is_okR r then (_extractR r).map (fun v => mkOk (f v)) else (_extract_errR r).map mkErr

/-- Result.map_or(default_value, f): if is_ok() return f(_extract()), else the
eagerly supplied default. -/
def map_orR (r : ResultRepr) (d : JsVal) (f : JsVal → JsVal) : Except JsErr JsVal :=
  if is_okR r then (_extractR r).map f else Except.ok d

/-- Result.map_or_else(default_f, f): if is_ok() return f(_extract()), else
default_f(). -/
def map_or_elseR (r : ResultRepr) (df : Unit → JsVal) (f : JsVal → JsVal) : Except JsErr JsVal :=
  if is_okR r then (_extractR r).map f else Except.ok (df ())

/-- Result.or(res): if is_ok() return a fresh Ok(_extract()), else res. -/
def orR (r : ResultRepr) (res : ResultRepr) : Except JsErr ResultRepr :=
  if is_okR r then (_extractR r).map mkOk else Except.ok res

/-- Result.or_else(f): if is_ok() return a fresh Ok(_extract()), else return
f() — the callback is invoked with the empty argument list (the source
signature is `f: () => Result<T, E>` and the call site is `f()`).  The
invocation list is returned alongside. -/
def or_elseR (r : ResultRepr) (f : List JsVal → ResultRepr) :
    Except JsErr (ResultRepr × List (List JsVal)) :=
  if is_okR r then (_extractR r).map (fun v => (mkOk v, []))
  else Except.ok (f [], [[]])

/-- Result.toString(): `const value = is_ok() ? _extract() : _extract_err();
return is_ok() ? Ok(value) : Err(value)` as template literals with the
ToString coercion. -/
def toStringR (r : ResultRepr) : Except JsErr String :=
  (if is_okR r then _extractR r else _extract_errR r).map (fun value =>
    if is_okR r then "Ok(" ++ toDisplay value ++ ")" else "Err(" ++ toDisplay value ++ ")")

/-- Result.unwrap(): if is_ok() return _extract(), else throw a TypeError. -/
def unwrapR (r : ResultRepr) : Except JsErr JsVal :=
  if is_okR r then _extractR r
  else Except.error (JsErr.typeError "Called Result.unwrap() on an Err value")

/-- Result.unwrap_err(): if is_err() return _extract_err(), else throw a
TypeError. -/
def unwrap_errR (r : ResultRepr) : Except JsErr JsVal :=
  if is_errR r then _extract_errR r
  else Except.error (JsErr.typeError "Called Result.unwrap_err() on an Ok value")

/-- Result.unwrap_or(default_value): if is_ok() return _extract(), else the
eagerly supplied default. -/
def unwrap_orR (r : ResultRepr) (d : JsVal) : Except JsErr JsVal :=
  if is_okR r then _extractR r else Except.ok d

/-- Result.unwrap_or_else(f): if is_ok() return _extract(), else return
f(_extract_err()) — the callback receives the error value as its one
argument.  The invocation list is returned alongside. -/
def unwrap_or_elseR (r : ResultRepr) (f : List JsVal → JsVal) :
    Except JsErr (JsVal × List (List JsVal)) :=
  if is_okR r then (_extractR r).map (fun v => (v, []))
  else (_extract_errR r).map (fun e => (f [e], [[e]]))

/-- A container satisfies the tagged-variant invariant when exactly one of
its two variant queries returns true. -/
abbrev exactlyOneO (o : OptionRepr) : Prop := is_someO o ≠ is_noneO o

/-- Result version of the tagged-variant invariant. -/
abbrev exactlyOneR (r : ResultRepr) : Prop := is_okR r ≠ is_errR r

/-- Lifts a property of results through the exception monad: it must hold of
the value whenever the computation returns normally. -/
def WFEP {β : Type} (P : β → Prop) : Except JsErr β → Prop
  | Except.ok b => P b
  | Except.error _ => True

/-- The messages of the internal wrong-side extraction TypeErrors thrown by
_extract (Option), _extract (Result) and _extract_err (Result). -/
def internalMsgs : List String :=
  ["Prevent taking value from `None`.",
   "Prevent taking value from `Err(E)`.",
   "Prevent taking err from `Ok(T)`."]

/-- Recognises the internal wrong-side extraction errors among all thrown
errors. -/
abbrev isInternal : JsErr → Bool
  | JsErr.typeError m => internalMsgs.contains m
  | JsErr.error _ => false

/-- A computation is internal-error free when it either returns normally or
throws one of the documented (non-internal) errors. -/
def internalFree {β : Type} : Except JsErr β → Prop
  | Except.ok _ => True
  | Except.error e => isInternal e = false

/-- Helper: Option.filter on a Some container evaluates the predicate once on
the stored value and produces a fresh Some or a fresh None accordingly. -/
theorem filterO_mkSome_eq (v : JsVal) (p : JsVal → Bool) :
    filterO (mkSome v) p = Except.ok ((if p v then mkSome v else mkNone), [v]) := by
  by_cases hp : p v <;>
    simp [filterO, is_someO, mkSome, _extractO, is_noneO, hp, Except.bind, Except.map]

/-- Helper: Option.xor on a Some receiver keys on the other container's
is_none query. -/
theorem xorO_mkSome_eq (v : JsVal) (b : OptionRepr) :
    xorO (mkSome v) b = Except.ok (if is_noneO b then mkSome v else mkNone) := by
  obtain ⟨s, n⟩ := b
  cases n <;> rfl

/-- Helper: Option.xor on a None receiver keys on the other container's
is_some query. -/
theorem xorO_mkNone_eq (b : OptionRepr) :
    xorO mkNone b = Except.ok (if is_someO b then b else mkNone) := by
  obtain ⟨s, n⟩ := b
  cases s <;> rfl

/-- C1 (counterexample): the claim predicts that on a Failure receiver,
or_else invokes its callback with the contained error value as its argument
and returns the callback's result; with the callback reporting the length of
its JS argument list, the claim would force the output
Ok(1) with invocation [["bad"]], but the source invokes the callback with no
arguments (`f()`), producing Ok(0) with invocation [[]]. -/
theorem or_else_result_error_argument_refuted :
    or_elseR (mkErr (JsVal.str "bad")) (fun args => mkOk (JsVal.num args.length))
      = Except.ok (mkOk (JsVal.num 0), [[]])
    ∧ or_elseR (mkErr (JsVal.str "bad")) (fun args => mkOk (JsVal.num args.length))
      ≠ Except.ok (mkOk (JsVal.num 1), [[JsVal.str "bad"]]) := by
  refine ⟨rfl, ?_⟩
  intro h
  simp [or_elseR, is_okR, mkErr, mkOk, _extract_errR] at h

/-- C1 (amended): for every Result container r and callback f: if r is
Success (Ok), r.or_else(f) returns a fresh Success structurally equal to r
without invoking f; if r is Failure (Err), r.or_else(f) invokes f once with
no arguments (the empty argument list) and returns f's result. -/
theorem or_else_result_contract :
    ∀ (v e : JsVal) (f : List JsVal → ResultRepr),
      or_elseR (mkOk v) f = Except.ok (mkOk v, [])
      ∧ or_elseR (mkErr e) f = Except.ok (f [], [[]]) :=
  fun _ _ _ => ⟨rfl, rfl⟩

/-- C3: and_then is associative for both families: chaining
c.and_then(f).and_then(g) equals c.and_then(x => f(x).and_then(g)) for every
container c (Some/None receiver for Optional, Ok/Err receiver for Result)
and all callbacks f, g returning containers. -/
theorem and_then_assoc :
    ∀ (v e : JsVal) (f g : JsVal → OptionRepr) (fr gr : JsVal → ResultRepr),
      ((and_thenO (mkSome v) (fun x => Except.ok (f x))).bind
          (fun m => and_thenO m (fun y => Except.ok (g y))))
        = and_thenO (mkSome v) (fun x => and_thenO (f x) (fun y => Except.ok (g y)))
      ∧ ((and_thenO mkNone (fun x => Except.ok (f x))).bind
          (fun m => and_thenO m (fun y => Except.ok (g y))))
        = and_thenO mkNone (fun x => and_thenO (f x) (fun y => Except.ok (g y)))
      ∧ ((and_thenR (mkOk v) (fun x => Except.ok (fr x))).bind
          (fun m => and_thenR m (fun y => Except.ok (gr y))))
        = and_thenR (mkOk v) (fun x => and_thenR (fr x) (fun y => Except.ok (gr y)))
      ∧ ((and_thenR (mkErr e) (fun x => Except.ok (fr x))).bind
          (fun m => and_thenR m (fun y => Except.ok (gr y))))
        = and_thenR (mkErr e) (fun x => and_thenR (fr x) (fun y => Except.ok (gr y))) :=
  fun _ _ _ _ _ _ => ⟨rfl, rfl, rfl, rfl⟩

/-- C4: Result.expect returns the contained value on Success; on Failure it
throws an Error whose message is the supplied msg, then ": ", then the
JSON.stringify rendering of the error payload; in particular
failure("bad").expect("want ok") fails with exactly the message
want ok: "bad" (the error appears JSON-quoted). -/
theorem expect_result_message :
    ∀ (v e : JsVal) (msg : String),
      expectR (mkOk v) msg = Except.ok v
      ∧ expectR (mkErr e) msg
        = Except.error (JsErr.error (msg ++ ": " ++ ((jsonStringify e).getD "undefined")))
      ∧ expectR (mkErr (JsVal.str "bad")) "want ok"
        = Except.error (JsErr.error "want ok: \"bad\"") :=
  fun _ _ _ => ⟨rfl, rfl, rfl⟩

/-- C5: Result.unwrap_or_else returns the contained value without invoking f
on Success and invokes f with the contained error value as its one argument
on Failure, returning the callback's result; Option.unwrap_or_else instead
invokes f with no arguments on Absent (None). -/
theorem unwrap_or_else_contract :
    ∀ (v e : JsVal) (fr fo : List JsVal → JsVal),
      unwrap_or_elseR (mkOk v) fr = Except.ok (v, [])
      ∧ unwrap_or_elseR (mkErr e) fr = Except.ok (fr [e], [[e]])
      ∧ unwrap_or_elseO (mkSome v) fo = Except.ok (v, [])
      ∧ unwrap_or_elseO mkNone fo = Except.ok (fo [], [[]]) :=
  fun _ _ _ _ => ⟨rfl, rfl, rfl, rfl⟩

/-- C6: a.xor(b) is Present iff exactly one of a, b is Present, and then it
is structurally equal to that Present container; it is Absent when both or
neither are Present. -/
theorem xor_contract :
    ∀ (v w : JsVal),
      xorO (mkSome v) (mkSome w) = Except.ok mkNone
      ∧ xorO (mkSome v) mkNone = Except.ok (mkSome v)
      ∧ xorO mkNone (mkSome w) = Except.ok (mkSome w)
      ∧ xorO mkNone mkNone = Except.ok mkNone :=
  fun _ _ => ⟨rfl, rfl, rfl, rfl⟩

/-- C7: filter on Present(v) evaluates the predicate once on v and returns a
fresh Present(v) when it holds and Absent otherwise; on Absent it returns
Absent and the predicate is never invoked (empty invocation list). -/
theorem filter_contract :
    ∀ (v : JsVal) (p : JsVal → Bool),
      filterO (mkSome v) p = Except.ok ((if p v then mkSome v else mkNone), [v])
      ∧ filterO mkNone p = Except.ok (mkNone, []) :=
  fun v p => ⟨filterO_mkSome_eq v p, rfl⟩

/-- C8: toString renders the has-value variant as the variant label followed
by the generic display conversion of the payload in parentheses and the
Optional empty variant as the bare label: "Some(" ++ display ++ ")" / "None"
for the Optional container and "Ok(" ++ display ++ ")" / "Err(" ++ display
++ ")" for the Result container (the source labels Some/None/Ok/Err are what
the specification calls Present/Absent/Success/Failure); the display
conversion renders arrays as comma-joined elements, plain objects via their
default textual form and functions via their source text. -/
theorem toString_contract :
    ∀ (v e : JsVal),
      toStringO (mkSome v) = Except.ok ("Some(" ++ toDisplay v ++ ")")
      ∧ toStringO mkNone = Except.ok "None"
      ∧ toStringR (mkOk v) = Except.ok ("Ok(" ++ toDisplay v ++ ")")
      ∧ toStringR (mkErr e) = Except.ok ("Err(" ++ toDisplay e ++ ")")
      ∧ toDisplay (JsVal.arr [JsVal.num 1, JsVal.num 2]) = "1,2"
      ∧ toDisplay JsVal.obj = "[object Object]"
      ∧ toDisplay (JsVal.fn "() => 2 * 4") = "() => 2 * 4" :=
  fun _ _ => ⟨rfl, rfl, rfl, rfl, rfl, rfl, rfl⟩

/-- C9: the Some factory records presence by the existence of the hidden sid
key, not by the stored value: for every v — including undefined — Some(v)
answers is_some() true and is_none() false and unwraps to v, and
Some(undefined) is observably distinct from None. -/
theorem some_factory_contract :
    ∀ (v : JsVal),
      (is_someO (mkSome v) = true ∧ is_noneO (mkSome v) = false
        ∧ unwrapO (mkSome v) = Except.ok v)
      ∧ is_someO (mkSome JsVal.undefined) = true
      ∧ is_someO mkNone = false
      ∧ mkSome JsVal.undefined ≠ mkNone
      ∧ unwrapO (mkSome JsVal.undefined) = Except.ok JsVal.undefined := by
  intro v
  refine ⟨⟨rfl, rfl, rfl⟩, rfl, rfl, ?_, rfl⟩
  intro h
  simp [mkSome, mkNone] at h

/-- Helper: Some containers satisfy the tagged-variant invariant. -/
theorem exactlyOneO_mkSome (v : JsVal) : exactlyOneO (mkSome v) := fun h => nomatch h

/-- Helper: the None container satisfies the tagged-variant invariant. -/
theorem exactlyOneO_mkNone : exactlyOneO mkNone := fun h => nomatch h

/-- Helper: Ok containers satisfy the tagged-variant invariant. -/
theorem exactlyOneR_mkOk (v : JsVal) : exactlyOneR (mkOk v) := fun h => nomatch h

/-- Helper: Err containers satisfy the tagged-variant invariant. -/
theorem exactlyOneR_mkErr (e : JsVal) : exactlyOneR (mkErr e) := fun h => nomatch h

/-- C2: every container built by the sanctioned factories satisfies the
tagged-variant invariant (exactly one of is_some/is_none, respectively
is_ok/is_err, is true), and every container produced from such containers by
any container-returning combinator — with any other-container arguments and
callbacks that themselves deliver factory-built containers — satisfies it as
well; combinators never mutate their receiver, so the variant of a container
never changes after construction. -/
theorem variant_exactly_one :
    ∀ (v e errv : JsVal) (b : OptionRepr) (rb : ResultRepr)
      (f : JsVal → OptionRepr) (fr : JsVal → ResultRepr)
      (fl : List JsVal → OptionRepr) (frl : List JsVal → ResultRepr)
      (g : JsVal → JsVal) (p : JsVal → Bool),
      exactlyOneO b → exactlyOneR rb →
      (∀ x, exactlyOneO (f x)) → (∀ x, exactlyOneR (fr x)) →
      (∀ a, exactlyOneO (fl a)) → (∀ a, exactlyOneR (frl a)) →
      exactlyOneO (mkSome v) ∧ exactlyOneO mkNone
      ∧ exactlyOneR (mkOk v) ∧ exactlyOneR (mkErr e)
      ∧ WFEP exactlyOneO (andO (mkSome v) b)
      ∧ WFEP exactlyOneO (andO mkNone b)
      ∧ WFEP exactlyOneO (and_thenO (mkSome v) (fun x => Except.ok (f x)))
      ∧ WFEP exactlyOneO (and_thenO mkNone (fun x => Except.ok (f x)))
      ∧ WFEP (fun q => exactlyOneO q.1) (filterO (mkSome v) p)
      ∧ WFEP (fun q => exactlyOneO q.1) (filterO mkNone p)
      ∧ WFEP (fun q => exactlyOneO q.1) (inspectO (mkSome v))
      ∧ WFEP (fun q => exactlyOneO q.1) (inspectO mkNone)
      ∧ WFEP exactlyOneO (mapO (mkSome v) g)
      ∧ WFEP exactlyOneO (mapO mkNone g)
      ∧ WFEP exactlyOneR (ok_orO (mkSome v) errv)
      ∧ WFEP exactlyOneR (ok_orO mkNone errv)
      ∧ WFEP exactlyOneO (orO (mkSome v) b)
      ∧ WFEP exactlyOneO (orO mkNone b)
      ∧ WFEP (fun q => exactlyOneO q.1) (or_elseO (mkSome v) fl)
      ∧ WFEP (fun q => exactlyOneO q.1) (or_elseO mkNone fl)
      ∧ WFEP exactlyOneO (xorO (mkSome v) b)
      ∧ WFEP exactlyOneO (xorO mkNone b)
      ∧ WFEP exactlyOneR (andR (mkOk v) rb)
      ∧ WFEP exactlyOneR (andR (mkErr e) rb)
      ∧ WFEP exactlyOneR (and_thenR (mkOk v) (fun x => Except.ok (fr x)))
      ∧ WFEP exactlyOneR (and_thenR (mkErr e) (fun x => Except.ok (fr x)))
      ∧ WFEP (fun q => exactlyOneR q.1) (inspectR (mkOk v))
      ∧ WFEP (fun q => exactlyOneR q.1) (inspectR (mkErr e))
      ∧ WFEP (fun q => exactlyOneR q.1) (inspect_errR (mkOk v))
      ∧ WFEP (fun q => exactlyOneR q.1) (inspect_errR (mkErr e))
      ∧ WFEP exactlyOneR (mapR (mkOk v) g)
      ∧ WFEP exactlyOneR (mapR (mkErr e) g)
      ∧ WFEP exactlyOneR (orR (mkOk v) rb)
      ∧ WFEP exactlyOneR (orR (mkErr e) rb)
      ∧ WFEP (fun q => exactlyOneR q.1) (or_elseR (mkOk v) frl)
      ∧ WFEP (fun q => exactlyOneR q.1) (or_elseR (mkErr e) frl) := by
  intro v e errv b rb f fr fl frl g p hb hrb hf hfr hfl hfrl
  refine ⟨exactlyOneO_mkSome v, exactlyOneO_mkNone, exactlyOneR_mkOk v, exactlyOneR_mkErr e,
    hb,
    exactlyOneO_mkNone,
    hf v,
    exactlyOneO_mkNone,
    ?_,
    exactlyOneO_mkNone,
    exactlyOneO_mkSome v,
    exactlyOneO_mkNone,
    exactlyOneO_mkSome (g v),
    exactlyOneO_mkNone,
    exactlyOneR_mkOk v,
    exactlyOneR_mkErr errv,
    exactlyOneO_mkSome v,
    hb,
    exactlyOneO_mkSome v,
    hfl [],
    ?_,
    ?_,
    hrb,
    exactlyOneR_mkErr e,
    hfr v,
    exactlyOneR_mkErr e,
    exactlyOneR_mkOk v,
    exactlyOneR_mkErr e,
    exactlyOneR_mkOk v,
    exactlyOneR_mkErr e,
    exactlyOneR_mkOk (g v),
    exactlyOneR_mkErr e,
    exactlyOneR_mkOk v,
    hrb,
    exactlyOneR_mkOk v,
    hfrl []⟩
  · rw [filterO_mkSome_eq]
    cases hp : p v
    · exact exactlyOneO_mkNone
    · exact exactlyOneO_mkSome v
  · rw [xorO_mkSome_eq]
    cases hn : is_noneO b
    · exact exactlyOneO_mkNone
    · exact exactlyOneO_mkSome v
  · rw [xorO_mkNone_eq]
    cases hs : is_someO b
    · exact exactlyOneO_mkNone
    · exact hb

/-- Witness: the tagged-variant invariant at the concrete container Some(1),
obtained from the general theorem with concrete arguments. -/
theorem variant_exactly_one_witness :
    is_someO (mkSome (JsVal.num 1)) ≠ is_noneO (mkSome (JsVal.num 1)) :=
  (variant_exactly_one (JsVal.num 1) (JsVal.str "x") JsVal.null mkNone (mkErr JsVal.null)
    (fun _ => mkNone) (fun _ => mkErr JsVal.null) (fun _ => mkNone) (fun _ => mkErr JsVal.null)
    (fun x => x) (fun _ => true)
    exactlyOneO_mkNone (exactlyOneR_mkErr JsVal.null) (fun _ => exactlyOneO_mkNone)
    (fun _ => exactlyOneR_mkErr JsVal.null) (fun _ => exactlyOneO_mkNone)
    (fun _ => exactlyOneR_mkErr JsVal.null)).1

/-- C10: on containers built by the sanctioned factories, the internal
wrong-side extraction TypeErrors ("Prevent taking value from ...") thrown by
_extract/_extract_err are unreachable through every public combinator of
both families: each combinator either returns normally or throws one of the
documented unwrap/expect-family errors, whose messages are not among the
internal extraction messages. -/
theorem internal_extract_error_unreachable :
    ∀ (v e d : JsVal) (b : OptionRepr) (rb : ResultRepr)
      (f : JsVal → OptionRepr) (fr : JsVal → ResultRepr)
      (fl : List JsVal → OptionRepr) (frl : List JsVal → ResultRepr)
      (uf ufr : List JsVal → JsVal)
      (g : JsVal → JsVal) (p : JsVal → Bool) (df : Unit → JsVal) (msg : String),
      internalFree (andO (mkSome v) b)
      ∧ internalFree (andO mkNone b)
      ∧ internalFree (and_thenO (mkSome v) (fun x => Except.ok (f x)))
      ∧ internalFree (and_thenO mkNone (fun x => Except.ok (f x)))
      ∧ internalFree (expectO (mkSome v) msg)
      ∧ internalFree (expectO mkNone msg)
      ∧ internalFree (filterO (mkSome v) p)
      ∧ internalFree (filterO mkNone p)
      ∧ internalFree (flattenO (mkSome v))
      ∧ internalFree (flattenO mkNone)
      ∧ internalFree (inspectO (mkSome v))
      ∧ internalFree (inspectO mkNone)
      ∧ internalFree (is_none_orO (mkSome v) p)
      ∧ internalFree (is_none_orO mkNone p)
      ∧ internalFree (is_some_andO (mkSome v) p)
      ∧ internalFree (is_some_andO mkNone p)
      ∧ internalFree (mapO (mkSome v) g)
      ∧ internalFree (mapO mkNone g)
      ∧ internalFree (map_orO (mkSome v) d g)
      ∧ internalFree (map_orO mkNone d g)
      ∧ internalFree (map_or_elseO (mkSome v) df g)
      ∧ internalFree (map_or_elseO mkNone df g)
      ∧ internalFree (ok_orO (mkSome v) e)
      ∧ internalFree (ok_orO mkNone e)
      ∧ internalFree (orO (mkSome v) b)
      ∧ internalFree (orO mkNone b)
      ∧ internalFree (or_elseO (mkSome v) fl)
      ∧ internalFree (or_elseO mkNone fl)
      ∧ internalFree (toStringO (mkSome v))
      ∧ internalFree (toStringO mkNone)
      ∧ internalFree (unwrapO (mkSome v))
      ∧ internalFree (unwrapO mkNone)
      ∧ internalFree (unwrap_orO (mkSome v) d)
      ∧ internalFree (unwrap_orO mkNone d)
      ∧ internalFree (unwrap_or_elseO (mkSome v) uf)
      ∧ internalFree (unwrap_or_elseO mkNone uf)
      ∧ internalFree (xorO (mkSome v) b)
      ∧ internalFree (xorO mkNone b)
      ∧ internalFree (andR (mkOk v) rb)
      ∧ internalFree (andR (mkErr e) rb)
      ∧ internalFree (and_thenR (mkOk v) (fun x => Except.ok (fr x)))
      ∧ internalFree (and_thenR (mkErr e) (fun x => Except.ok (fr x)))
      ∧ internalFree (expectR (mkOk v) msg)
      ∧ internalFree (expectR (mkErr e) msg)
      ∧ internalFree (expect_errR (mkOk v) msg)
      ∧ internalFree (expect_errR (mkErr e) msg)
      ∧ internalFree (inspectR (mkOk v))
      ∧ internalFree (inspectR (mkErr e))
      ∧ internalFree (inspect_errR (mkOk v))
      ∧ internalFree (inspect_errR (mkErr e))
      ∧ internalFree (is_err_andR (mkOk v) p)
      ∧ internalFree (is_err_andR (mkErr e) p)
      ∧ internalFree (is_ok_andR (mkOk v) p)
      ∧ internalFree (is_ok_andR (mkErr e) p)
      ∧ internalFree (mapR (mkOk v) g)
      ∧ internalFree (mapR (mkErr e) g)
      ∧ internalFree (map_orR (mkOk v) d g)
      ∧ internalFree (map_orR (mkErr e) d g)
      ∧ internalFree (map_or_elseR (mkOk v) df g)
      ∧ internalFree (map_or_elseR (mkErr e) df g)
      ∧ internalFree (orR (mkOk v) rb)
      ∧ internalFree (orR (mkErr e) rb)
      ∧ internalFree (or_elseR (mkOk v) frl)
      ∧ internalFree (or_elseR (mkErr e) frl)
      ∧ internalFree (toStringR (mkOk v))
      ∧ internalFree (toStringR (mkErr e))
      ∧ internalFree (unwrapR (mkOk v))
      ∧ internalFree (unwrapR (mkErr e))
      ∧ internalFree (unwrap_errR (mkOk v))
      ∧ internalFree (unwrap_errR (mkErr e))
      ∧ internalFree (unwrap_orR (mkOk v) d)
      ∧ internalFree (unwrap_orR (mkErr e) d)
      ∧ internalFree (unwrap_or_elseR (mkOk v) ufr)
      ∧ internalFree (unwrap_or_elseR (mkErr e) ufr) := by
  intro v e d b rb f fr fl frl uf ufr g p df msg
  refine ⟨True.intro, True.intro, True.intro, True.intro, True.intro, rfl,
    ?_, True.intro, True.intro, True.intro, True.intro, True.intro,
    True.intro, True.intro, True.intro, True.intro, True.intro, True.intro,
    True.intro, True.intro, True.intro, True.intro, True.intro, True.intro,
    True.intro, True.intro, True.intro, True.intro, True.intro, True.intro,
    True.intro,
    (by decide : internalMsgs.contains "Called Option.unwrap() on a None value" = false),
    True.intro, True.intro, True.intro, True.intro, ?_, ?_,
    True.intro, True.intro, True.intro, True.intro, True.intro, rfl, rfl,
    True.intro, True.intro, True.intro, True.intro, True.intro, True.intro,
    True.intro, True.intro, True.intro, True.intro, True.intro, True.intro,
    True.intro, True.intro, True.intro, True.intro, True.intro, True.intro,
    True.intro, True.intro, True.intro, True.intro,
    (by decide : internalMsgs.contains "Called Result.unwrap() on an Err value" = false),
    (by decide : internalMsgs.contains "Called Result.unwrap_err() on an Ok value" = false),
    True.intro, True.intro, True.intro, True.intro, True.intro⟩
  · rw [filterO_mkSome_eq]
    exact True.intro
  · rw [xorO_mkSome_eq]
    exact True.intro
  · rw [xorO_mkNone_eq]
    exact True.intro
